import Mathlib

/-!
Verification of the TravelTracker automated ingestion subsystem.

Shallow embedding of `src/email_scanner.py`, `src/utils.py` and the relevant
entities of `src/models.py`.  Text is modelled as `List Char`; datetimes as
`Nat` seconds with the current clock passed explicitly; the relational store
as in-memory lists of records; the fallible network/database collaborators as
explicit parameters (`Except`, `Bool`).
-/

namespace TravelTracker

/-! ## Character classes (Python `re`, ASCII range as used by the inputs) -/

/-- Python `\w`: `[A-Za-z0-9_]` (ASCII fragment). -/
def wordChar (c : Char) : Bool :=
  c.isAlpha || c.isDigit || c = '_'

/-- Python `\s`: `[ \t\n\r\f\v]` (ASCII fragment). -/
def isPySpace (c : Char) : Bool :=
  c = ' ' || c = '\t' || c = '\n' || c = '\r' || c = '\x0c' || c = '\x0b'

/-- Uppercase letter or digit, the class `[A-Z0-9]` of `CONFIRMATION_PATTERN`. -/
def upperOrDigit (c : Char) : Bool :=
  c.isUpper || c.isDigit

/-! ## `re.findall` for the token patterns

`CONFIRMATION_PATTERN` (6 characters of `[A-Z0-9]`) and `AIRPORT_PATTERN`
(3 characters of `[A-Z]`) are both a bracketed class repeated a fixed number
of times between two word boundaries, the class a subclass of the word
characters.  A match of such a pattern is
exactly a maximal word-character run of length `n` all of whose characters
lie in `C` (the two `\b` force the match to cover a whole run), and
`re.findall` returns these runs left to right. -/

/-- Split a text into its maximal word-character runs, left to right.
`acc` holds the (reversed) run currently being read. -/
def wordRunsAux : List Char → List Char → List (List Char)
  | [], acc => if acc.isEmpty then [] else [acc.reverse]
  | c :: cs, acc =>
    if wordChar c then
      wordRunsAux cs (c :: acc)
    else if acc.isEmpty then
      wordRunsAux cs []
    else
      acc.reverse :: wordRunsAux cs []

def wordRuns (s : List Char) : List (List Char) :=
  wordRunsAux s []

/-- `re.findall` of `\b(C..n..)\b` for a character class `C ⊆ \w`;
`n` is the exact token length. -/
def reFindallTok (cls : Char → Bool) (n : Nat) (s : List Char) : List (List Char) :=
  (wordRuns s).filter (fun r => r.length = n && r.all cls)

/-! ## `re.search` for `FLIGHT_NUMBER_PATTERN`, two uppercase letters then
optional whitespace then 1-4 digits, with word boundaries on both sides

At a given position (with the wordness of the preceding character supplied):
the position must be a word boundary, then two uppercase letters, then the
whitespace run (`\s*` is greedy and the next atom `\d` never matches a space),
then the digit run, which the final `\b` forces to be maximal and of length
1–4.  The source joins the two groups: `group(1) + group(2)`. -/

def matchFlightAt (prevWord : Bool) (s : List Char) : Option (List Char) :=
  if prevWord then none
  else
    match s with
    | c1 :: c2 :: rest =>
      if c1.isUpper && c2.isUpper then
        let afterSp := rest.dropWhile isPySpace
        let ds := afterSp.takeWhile Char.isDigit
        let after := afterSp.drop ds.length
        if 1 ≤ ds.length && ds.length ≤ 4 && !wordChar (after.headD ' ') then
          some (c1 :: c2 :: ds)
        else none
      else none
    | _ => none

/-- Scan left to right, as `re.search` does, returning the first match. -/
def searchFlightAux : Bool → List Char → Option (List Char)
  | _, [] => none
  | prevW, c :: cs =>
    match matchFlightAt prevW (c :: cs) with
    | some r => some r
    | none => searchFlightAux (wordChar c) cs

def reSearchFlight (s : List Char) : Option (List Char) :=
  searchFlightAux false s

/-! ## The three date/time regexes of `_extract_datetime`

Only the existence of a match matters: on any match the source returns the
placeholder `datetime.now() + timedelta(days=30)`.  Each matcher below decides
whether the pattern matches at the head of the given suffix.  A bounded
quantifier `\d{i,j}` that is followed by a non-digit atom must consume the
whole maximal digit run (backtracking to fewer digits leaves a digit where a
non-digit is required), so the matchers test the length of the maximal
run. -/

/-- Head character test. -/
def headIs (c : Char) (s : List Char) : Bool :=
  match s with
  | x :: _ => x = c
  | [] => false

/-- First date pattern at the head: 1-2 digits, slash, 1-2 digits, slash,
4 digits, whitespace, 1-2 digits, colon, 2 digits, optional AM or PM. -/
def matchDate1At (s : List Char) : Bool :=
  let r1 := s.takeWhile Char.isDigit
  let s1 := s.drop r1.length
  1 ≤ r1.length && r1.length ≤ 2 && headIs '/' s1 &&
    (let s2 := s1.tail
     let r2 := s2.takeWhile Char.isDigit
     let s3 := s2.drop r2.length
     1 ≤ r2.length && r2.length ≤ 2 && headIs '/' s3 &&
       (let s4 := s3.tail
        let r3 := s4.takeWhile Char.isDigit
        let s5 := s4.drop r3.length
        r3.length = 4 &&
          (let w := s5.takeWhile isPySpace
           1 ≤ w.length &&
             (let s6 := s5.drop w.length
              let r4 := s6.takeWhile Char.isDigit
              let s7 := s6.drop r4.length
              1 ≤ r4.length && r4.length ≤ 2 && headIs ':' s7 &&
                (let s8 := s7.tail
                 2 ≤ (s8.takeWhile Char.isDigit).length)))))

/-- Second date pattern at the head: 4 digits, dash, 2 digits, dash,
2 digits, whitespace, 2 digits, colon, 2 digits. -/
def matchDate2At (s : List Char) : Bool :=
  let r1 := s.takeWhile Char.isDigit
  let s1 := s.drop r1.length
  r1.length = 4 && headIs '-' s1 &&
    (let s2 := s1.tail
     let r2 := s2.takeWhile Char.isDigit
     let s3 := s2.drop r2.length
     r2.length = 2 && headIs '-' s3 &&
       (let s4 := s3.tail
        let r3 := s4.takeWhile Char.isDigit
        let s5 := s4.drop r3.length
        r3.length = 2 &&
          (let w := s5.takeWhile isPySpace
           1 ≤ w.length &&
             (let s6 := s5.drop w.length
              let r4 := s6.takeWhile Char.isDigit
              let s7 := s6.drop r4.length
              r4.length = 2 && headIs ':' s7 &&
                (let s8 := s7.tail
                 2 ≤ (s8.takeWhile Char.isDigit).length)))))

/-- Third date pattern at the head: letters, whitespace, 1-2 digits, comma,
whitespace, 4 digits, whitespace, 1-2 digits, colon, 2 digits, optional AM
or PM. -/
def matchDate3At (s : List Char) : Bool :=
  let a := s.takeWhile Char.isAlpha
  let s1 := s.drop a.length
  1 ≤ a.length &&
    (let w1 := s1.takeWhile isPySpace
     1 ≤ w1.length &&
       (let s2 := s1.drop w1.length
        let r1 := s2.takeWhile Char.isDigit
        let s3 := s2.drop r1.length
        1 ≤ r1.length && r1.length ≤ 2 && headIs ',' s3 &&
          (let s4 := s3.tail
           let w2 := s4.takeWhile isPySpace
           1 ≤ w2.length &&
             (let s5 := s4.drop w2.length
              let r2 := s5.takeWhile Char.isDigit
              let s6 := s5.drop r2.length
              r2.length = 4 &&
                (let w3 := s6.takeWhile isPySpace
                 1 ≤ w3.length &&
                   (let s7 := s6.drop w3.length
                    let r3 := s7.takeWhile Char.isDigit
                    let s8 := s7.drop r3.length
                    1 ≤ r3.length && r3.length ≤ 2 && headIs ':' s8 &&
                      (let s9 := s8.tail
                       2 ≤ (s9.takeWhile Char.isDigit).length)))))))

/-- Does the head-matcher `p` match at some position of `s` (`re.search` as a
Boolean)? -/
def reSearchBool (p : List Char → Bool) : List Char → Bool
  | [] => p []
  | c :: cs => p (c :: cs) || reSearchBool p cs

/-- Whether any of the three date patterns of `_extract_datetime` matches. -/
def anyDateMatch (content : List Char) : Bool :=
  reSearchBool matchDate1At content || reSearchBool matchDate2At content ||
    reSearchBool matchDate3At content

/-- `EmailScanner._extract_datetime`.  The `flight_type` argument of the source
is never used by its body and is omitted.  On any pattern match the source
returns `datetime.now() + timedelta(days=30)` (a placeholder), else `None`;
`now` is the clock reading in seconds. -/
def extract_datetime (content : List Char) (now : Nat) : Option Nat :=
  if anyDateMatch content then some (now + 30 * 86400) else none

/-! ## Airline signature patterns (`_detect_airline`)

The table regexes are of two shapes on the lowercased haystack: a literal
substring (`united\.com`), and literals separated by `.*`, where `.` does not
match a newline.  Only match existence matters. -/

/-- Literal prefix test on `List Char`. -/
def litPref : List Char → List Char → Bool
  | [], _ => true
  | _ :: _, [] => false
  | a :: as, b :: bs => a = b && litPref as bs

/-- Literal substring test (`re.search` of an escaped literal). -/
def containsLit (p : List Char) : List Char → Bool
  | [] => litPref p []
  | c :: cs => litPref p (c :: cs) || containsLit p cs

/-- Find `q` further right without crossing a newline (the `.*q` tail). -/
def seekNoNl (q : List Char) : List Char → Bool
  | [] => litPref q []
  | c :: cs => litPref q (c :: cs) || (!(c = '\n') && seekNoNl q cs)

/-- Find `q` then `r` further right, newline-free gaps (the `.*q.*r` tail). -/
def seekNoNl2 (q r : List Char) : List Char → Bool
  | [] => false
  | c :: cs =>
    (litPref q (c :: cs) && seekNoNl r ((c :: cs).drop q.length)) ||
      (!(c = '\n') && seekNoNl2 q r cs)

/-- `re.search` of the pattern p-dot-star-q as a Boolean. -/
def seqPat2 (p q : List Char) : List Char → Bool
  | [] => false
  | c :: cs =>
    (litPref p (c :: cs) && seekNoNl q ((c :: cs).drop p.length)) ||
      seqPat2 p q cs

/-- `re.search` of the pattern p-dot-star-q-dot-star-r as a Boolean. -/
def seqPat3 (p q r : List Char) : List Char → Bool
  | [] => false
  | c :: cs =>
    (litPref p (c :: cs) && seekNoNl2 q r ((c :: cs).drop p.length)) ||
      seqPat3 p q r cs

/-- `AIRLINE_PATTERNS`: airline name together with its pattern list, in the
dict/list order of the source (first match wins). -/
def AIRLINE_PATTERNS : List (List Char × List (List Char → Bool)) :=
  [ (("united").toList,
      [ containsLit (("united.com").toList),
        seqPat2 (("confirmation").toList) (("united").toList),
        seqPat2 (("flight").toList) (("confirmation").toList) ]),
    (("american").toList,
      [ containsLit (("aa.com").toList),
        containsLit (("americanairlines.com").toList),
        seqPat2 (("confirmation").toList) (("american airlines").toList) ]),
    (("delta").toList,
      [ containsLit (("delta.com").toList),
        seqPat2 (("confirmation").toList) (("delta").toList),
        seqPat3 (("flight").toList) (("confirmation").toList) (("delta").toList) ]),
    (("southwest").toList,
      [ containsLit (("southwest.com").toList),
        seqPat2 (("confirmation").toList) (("southwest").toList),
        seqPat3 (("flight").toList) (("confirmation").toList) (("southwest").toList) ]) ]

/-- Double loop of `_detect_airline`: first airline one of whose patterns
matches the haystack. -/
def firstAirline : List (List Char × List (List Char → Bool)) → List Char →
    Option (List Char)
  | [], _ => none
  | (name, pats) :: rest, t =>
    if pats.any (fun p => p t) then some name else firstAirline rest t

/-- `EmailScanner._detect_airline`: searches the lowercased
concatenation of from_email, subject and content, blank-separated. -/
def detect_airline (fromEmail subject content : List Char) : Option (List Char) :=
  let t := (fromEmail ++ ' ' :: subject ++ ' ' :: content).map Char.toLower
  firstAirline AIRLINE_PATTERNS t

/-! ## Extraction engine (`_extract_flight_info`, `parse_flight_email`) -/

/-- The candidate dict built by `_extract_flight_info`. -/
structure FlightInfo where
  airline : List Char
  flight_number : Option (List Char)
  confirmation_number : Option (List Char)
  departure_airport : Option (List Char)
  arrival_airport : Option (List Char)
  departure_time : Option Nat
  arrival_time : Option Nat
deriving DecidableEq, Repr

/-- The stop-word list filtering airport false positives. -/
def STOP_WORDS : List (List Char) :=
  [("THE").toList, ("AND").toList, ("FOR").toList, ("NOT").toList, ("ARE").toList]

/-- The three-uppercase-letter tokens that survive the stop-word filter. -/
def valid_airports (content : List Char) : List (List Char) :=
  (reFindallTok Char.isUpper 3 content).filter
    (fun code => !(STOP_WORDS.contains code))

/-- `EmailScanner._extract_flight_info`.  `now` is the clock, consumed only by
the `_extract_datetime` placeholder.  The final truthiness check of the source
(truthiness of the flight_number, departure_airport and arrival_airport
entries) is `isSome` here: the regex captures are never empty strings. -/
def extract_flight_info (content airline : List Char) (now : Nat) :
    Option FlightInfo :=
  let flightNum := reSearchFlight content
  let confMatches := reFindallTok upperOrDigit 6 content
  let confirmation := confMatches.head?
  let airportMatches := reFindallTok Char.isUpper 3 content
  let depArr :=
    if 2 ≤ airportMatches.length then
      let valid := valid_airports content
      if 2 ≤ valid.length then (valid.head?, (valid.drop 1).head?)
      else ((none : Option (List Char)), (none : Option (List Char)))
    else ((none : Option (List Char)), (none : Option (List Char)))
  let info : FlightInfo :=
    { airline := airline.map Char.toUpper
      flight_number := flightNum
      confirmation_number := confirmation
      departure_airport := depArr.1
      arrival_airport := depArr.2
      departure_time := extract_datetime content now
      arrival_time := extract_datetime content now }
  if flightNum.isSome && depArr.1.isSome && depArr.2.isSome then some info
  else none

/-- The body-cleaning step of `parse_flight_email`: when the content contains
the marker `<html` (case-insensitively) the source strips tags with
BeautifulSoup, an
external library modelled as the supplied `getText` collaborator; otherwise
the raw content is used. -/
def clean_text (getText : List Char → List Char) (content : List Char) :
    List Char :=
  if containsLit (("<html").toList) (content.map Char.toLower) then
    getText content
  else content

/-- `EmailScanner.parse_flight_email`. -/
def parse_flight_email (getText : List Char → List Char)
    (content subject fromEmail : List Char) (now : Nat) : Option FlightInfo :=
  let text := clean_text getText content
  match detect_airline fromEmail subject text with
  | none => none
  | some airline => extract_flight_info text airline now

/-! ## Data model and materialization (`models.py`, `create_trip_from_flight`) -/

inductive TripVisibility
  | PRIVATE
  | SHARED
  | PUBLIC
deriving DecidableEq, Repr

/-- The fields of `Trip` that materialization writes. -/
structure Trip where
  id : Nat
  user_id : Nat
  title : List Char
  destination : Option (List Char)
  start_date : Nat
  end_date : Nat
  visibility : TripVisibility
  confirmation_number : Option (List Char)
  auto_detected : Bool
  email_source : Option (List Char)
deriving DecidableEq, Repr

/-- The fields of `Flight` that materialization writes. -/
structure Flight where
  trip_id : Nat
  airline : List Char
  flight_number : Option (List Char)
  confirmation_number : Option (List Char)
  departure_airport : Option (List Char)
  arrival_airport : Option (List Char)
  departure_time : Nat
  arrival_time : Nat
  status : List Char
deriving DecidableEq, Repr

/-- The relevant slice of the relational store; `nextTripId` models the
autoincrementing primary key obtained at `db.session.flush()`. -/
structure Store where
  trips : List Trip
  flights : List Flight
  nextTripId : Nat
deriving DecidableEq, Repr

/-- Python f-string rendering of a possibly-`None` value. -/
def pyStr (o : Option (List Char)) : List Char :=
  match o with
  | some s => s
  | none => ("None").toList

/-- `EmailScanner.create_trip_from_flight`.

`userId` is `self.email_account.user.id`; `now` stands for the
`datetime.now()` calls of the body; `commitOk` tells whether the database
write succeeds — on any failure the source rolls the session back and returns
`None`, so neither pending record persists.  The duplicate lookup
`Flight.query.filter_by(confirmation_number=...)` compares against the
value of the candidate, which SQLAlchemy turns into `IS NULL` when it is
`None` — modelled by equality of `Option` values. -/
def create_trip_from_flight (st : Store) (userId : Nat) (info : FlightInfo)
    (emailId : List Char) (now : Nat) (commitOk : Bool) :
    Option Trip × Store :=
  let existing := st.flights.find?
    (fun f => decide (f.confirmation_number = info.confirmation_number))
  match existing with
  | some _ => (none, st)
  | none =>
    let trip : Trip :=
      { id := st.nextTripId
        user_id := userId
        title := pyStr info.departure_airport ++ (" to ").toList ++
          pyStr info.arrival_airport
        destination := info.arrival_airport
        start_date := info.departure_time.getD now
        end_date := info.arrival_time.getD (now + 86400)
        visibility := TripVisibility.PRIVATE
        confirmation_number := info.confirmation_number
        auto_detected := true
        email_source := some emailId }
    let flight : Flight :=
      { trip_id := trip.id
        airline := info.airline
        flight_number := info.flight_number
        confirmation_number := info.confirmation_number
        departure_airport := info.departure_airport
        arrival_airport := info.arrival_airport
        departure_time := info.departure_time.getD now
        arrival_time := info.arrival_time.getD (now + 7200)
        status := ("scheduled").toList }
    if commitOk then
      (some trip,
        { trips := st.trips ++ [trip]
          flights := st.flights ++ [flight]
          nextTripId := st.nextTripId + 1 })
    else
      (none, st)

/-! ## Gmail scan skeleton (`GmailScanner.scan_for_flights`)

The Gmail JSON/base64 plumbing is provider I/O glue; a fetched message is
modelled directly by its id, subject, sender and decoded body.  `listStatus`
is the HTTP status of the message-list call.  `ScanEvent` records the
externally visible calls the body makes, so that the absence of a token
refresh is a provable fact of the embedding: the 401 branch of the source
logs
"Gmail token expired" and returns 0 — it neither calls
`refresh_oauth_token` (which no code in the repository calls) nor retries. -/

inductive ScanEvent
  | listGet
  | msgGet
  | tokenRefresh
deriving DecidableEq, Repr

structure GmailMsg where
  id : List Char
  subject : List Char
  fromEmail : List Char
  body : List Char
deriving Repr

/-- One loop iteration over a fetched message. -/
def gmailStep (getText : List Char → List Char) (userId : Nat) (now : Nat)
    (acc : Nat × Store × List ScanEvent) (m : GmailMsg) :
    Nat × Store × List ScanEvent :=
  let evs := acc.2.2 ++ [ScanEvent.msgGet]
  match parse_flight_email getText m.body m.subject m.fromEmail now with
  | none => (acc.1, acc.2.1, evs)
  | some info =>
    match create_trip_from_flight acc.2.1 userId info m.id now true with
    | (some _, s') => (acc.1 + 1, s', evs)
    | (none, s') => (acc.1, s', evs)

/-- `GmailScanner.scan_for_flights`: trips created, resulting store, and the
provider/refresh calls performed. -/
def gmail_scan_for_flights (getText : List Char → List Char) (listStatus : Nat)
    (msgs : List GmailMsg) (st : Store) (userId : Nat) (now : Nat) :
    Nat × Store × List ScanEvent :=
  if listStatus = 401 then
    (0, st, [ScanEvent.listGet])
  else
    msgs.foldl (gmailStep getText userId now) (0, st, [ScanEvent.listGet])

/-! ## Token refresh (`utils.refresh_oauth_token`) -/

inductive EmailType
  | gmail
  | outlook
  | other
deriving DecidableEq, Repr

/-- The OAuth-credential fields of `UserSettings`; `isSome` models
`bool(client_id and client_secret)` (the source stores nonempty strings). -/
structure UserSettingsM where
  google_client_id : Option (List Char)
  google_client_secret : Option (List Char)
  microsoft_client_id : Option (List Char)
  microsoft_client_secret : Option (List Char)
deriving DecidableEq, Repr

def has_google_oauth (s : UserSettingsM) : Bool :=
  s.google_client_id.isSome && s.google_client_secret.isSome

def has_microsoft_oauth (s : UserSettingsM) : Bool :=
  s.microsoft_client_id.isSome && s.microsoft_client_secret.isSome

/-- The credential fields of `models.EmailAccount` touched by refresh. -/
structure EmailAccountM where
  id : Nat
  email_type : EmailType
  access_token : Option (List Char)
  refresh_token : Option (List Char)
  token_expires_at : Option Nat
  is_active : Bool
deriving DecidableEq, Repr

/-- The token-endpoint JSON reply of the provider. -/
structure TokenResponse where
  access_token : Option (List Char)
  refresh_token : Option (List Char)
  expires_in : Option Nat
  error : Option (List Char)
deriving DecidableEq, Repr

/-- `utils.refresh_oauth_token`.  `resp` is the outcome of the
`requests.post` exchange (`Except.error` models the call raising, which the
source catches and logs).  Returns the Boolean of the source together
with the
account record as left by the function: on the failure paths no field is
ever assigned — in particular `is_active` is never written. -/
def refresh_oauth_token (acct : EmailAccountM) (settings : UserSettingsM)
    (resp : Except (List Char) TokenResponse) (now : Nat) :
    Bool × EmailAccountM :=
  let credsOk :=
    match acct.email_type with
    | EmailType.gmail => has_google_oauth settings
    | EmailType.outlook => has_microsoft_oauth settings
    | EmailType.other => false
  if !credsOk then (false, acct)
  else
    match resp with
    | Except.error _ => (false, acct)
    | Except.ok tokens =>
      match tokens.access_token with
      | none => (false, acct)
      | some newAccess =>
        let a1 := { acct with access_token := some newAccess }
        let a2 :=
          match tokens.refresh_token with
          | some rt => { a1 with refresh_token := some rt }
          | none => a1
        let a3 :=
          match tokens.expires_in with
          | some e => { a2 with token_expires_at := some (now + e) }
          | none => a2
        (true, a3)

/-! ## The per-account loop (`scan_all_email_accounts`) -/

/-- One account as the loop sees it.  `scan_result` abstracts everything the
per-account `try` block does after dispatch: `Except.ok n` is a normal
return of `n` created trips, `Except.error e` an exception raised while
handling this account. -/
structure ScanAccount where
  id : Nat
  is_active : Bool
  email_integration_enabled : Bool
  auto_scan_emails : Bool
  email_type : EmailType
  scan_result : Except (List Char) Nat
deriving Repr

/-- A row of `EmailScanLog`. -/
structure ScanLog where
  email_account_id : Nat
  trips_created : Nat
  emails_processed : Nat
  errors : Option (List Char)
deriving DecidableEq, Repr

/-- The log row written for an account, mirroring the success write
(`emails_processed=20  # Simplified`) and the error write of the source. -/
def log_of (a : ScanAccount) : ScanLog :=
  match a.scan_result with
  | Except.ok n =>
    { email_account_id := a.id, trips_created := n, emails_processed := 20,
      errors := none }
  | Except.error e =>
    { email_account_id := a.id, trips_created := 0, emails_processed := 0,
      errors := some e }

/-- The settings/type checks that let an account reach the scanner. -/
def account_scannable (a : ScanAccount) : Bool :=
  a.email_integration_enabled && a.auto_scan_emails &&
    !(decide (a.email_type = EmailType.other))

/-- The `for account in email_accounts` loop. -/
def scan_all_go : List ScanAccount → Nat → List ScanLog → Nat × List ScanLog
  | [], total, logs => (total, logs)
  | a :: rest, total, logs =>
    if !a.email_integration_enabled then scan_all_go rest total logs
    else if !a.auto_scan_emails then scan_all_go rest total logs
    else
      match a.email_type with
      | EmailType.other => scan_all_go rest total logs
      | EmailType.gmail =>
        match a.scan_result with
        | Except.ok n => scan_all_go rest (total + n) (logs ++ [log_of a])
        | Except.error _ => scan_all_go rest total (logs ++ [log_of a])
      | EmailType.outlook =>
        match a.scan_result with
        | Except.ok n => scan_all_go rest (total + n) (logs ++ [log_of a])
        | Except.error _ => scan_all_go rest total (logs ++ [log_of a])

/-- `email_scanner.scan_all_email_accounts`: filters
`EmailAccount.query.filter_by(is_active=True)` then runs the loop; returns
the total of created trips and the appended scan-log rows. -/
def scan_all_email_accounts (accounts : List ScanAccount) :
    Nat × List ScanLog :=
  scan_all_go (accounts.filter (fun a => a.is_active)) 0 []

/-! ## Helper lemmas -/

lemma head?_isSome_of_length {α : Type} {l : List α} (h : 1 ≤ l.length) :
    l.head?.isSome := by
  cases l with
  | nil => simp at h
  | cons a t => simp

lemma create_skip_of_mem {st : Store} {info : FlightInfo} {f : Flight}
    (uid : Nat) (eid : List Char) (now : Nat) (commitOk : Bool)
    (hf : f ∈ st.flights)
    (hconf : f.confirmation_number = info.confirmation_number) :
    create_trip_from_flight st uid info eid now commitOk = (none, st) := by
  have hsome : (st.flights.find?
      (fun g => decide (g.confirmation_number = info.confirmation_number))).isSome := by
    rw [List.find?_isSome]
    exact ⟨f, hf, by simp [hconf]⟩
  rcases Option.isSome_iff_exists.mp hsome with ⟨g, hg⟩
  simp [create_trip_from_flight, hg]

/-! ## Claim theorems -/

/-- When the duplicate lookup finds nothing and the write commits, the call
extends the store by one trip and one flight pointing at it, both carrying
the confirmation code of the candidate. -/
lemma create_commit_of_find?_none {st : Store} {info : FlightInfo}
    (uid : Nat) (eid : List Char) (now : Nat)
    (h : st.flights.find?
      (fun f => decide (f.confirmation_number = info.confirmation_number)) = none) :
    ∃ t f, create_trip_from_flight st uid info eid now true =
        (some t,
          { trips := st.trips ++ [t], flights := st.flights ++ [f],
            nextTripId := st.nextTripId + 1 }) ∧
      f.confirmation_number = info.confirmation_number ∧ f.trip_id = t.id := by
  refine ⟨{ id := st.nextTripId, user_id := uid,
            title := pyStr info.departure_airport ++ (" to ").toList ++
              pyStr info.arrival_airport,
            destination := info.arrival_airport,
            start_date := info.departure_time.getD now,
            end_date := info.arrival_time.getD (now + 86400),
            visibility := TripVisibility.PRIVATE,
            confirmation_number := info.confirmation_number,
            auto_detected := true, email_source := some eid },
          { trip_id := st.nextTripId, airline := info.airline,
            flight_number := info.flight_number,
            confirmation_number := info.confirmation_number,
            departure_airport := info.departure_airport,
            arrival_airport := info.arrival_airport,
            departure_time := info.departure_time.getD now,
            arrival_time := info.arrival_time.getD (now + 7200),
            status := ("scheduled").toList }, ?_, rfl, rfl⟩
  unfold create_trip_from_flight
  rw [h]
  rfl

/-- Claim C1: materializing a candidate with a fresh confirmation code writes
exactly one `Flight` carrying that code; materializing the same candidate
again performs no write and returns `None` (duplicate skip), leaving the
store unchanged — first-write-wins idempotency of
`create_trip_from_flight` on the confirmation-code natural key. -/
theorem claim1_idempotent_materialization (st0 : Store) (info : FlightInfo)
    (code : List Char) (uid : Nat) (eid eid' : List Char) (now now' : Nat)
    (commitOk' : Bool)
    (hc : info.confirmation_number = some code)
    (h0 : ∀ f ∈ st0.flights, f.confirmation_number ≠ some code) :
    ∃ t st1, create_trip_from_flight st0 uid info eid now true = (some t, st1) ∧
      (st1.flights.filter
        (fun f => decide (f.confirmation_number = some code))).length = 1 ∧
      create_trip_from_flight st1 uid info eid' now' commitOk' = (none, st1) := by
  have hfind : st0.flights.find?
      (fun f => decide (f.confirmation_number = info.confirmation_number)) = none := by
    rw [List.find?_eq_none]
    intro f hf
    simp [hc, h0 f hf]
  obtain ⟨t, f, hcr, hfc, hft⟩ := create_commit_of_find?_none uid eid now hfind
  have hnil : st0.flights.filter
      (fun g => decide (g.confirmation_number = some code)) = [] := by
    rw [List.filter_eq_nil_iff]
    intro g hg
    simp [h0 g hg]
  refine ⟨t, _, hcr, ?_, ?_⟩
  · show ((st0.flights ++ [f]).filter
      (fun g => decide (g.confirmation_number = some code))).length = 1
    rw [List.filter_append, hnil]
    simp [hfc, hc]
  · exact create_skip_of_mem uid eid' now' commitOk'
      (List.mem_append_right _ (List.mem_singleton_self f)) hfc

/-- Witness for C1 at a concrete input: empty store, candidate with
confirmation code "AB12CD". -/
theorem claim1_witness :
    ∃ t st1, create_trip_from_flight (Store.mk [] [] 1) 1
        { airline := ("UNITED").toList,
          flight_number := some (("UA1234").toList),
          confirmation_number := some (("AB12CD").toList),
          departure_airport := some (("JFK").toList),
          arrival_airport := some (("LAX").toList),
          departure_time := none, arrival_time := none }
        (("m1").toList) 0 true = (some t, st1) ∧
      (st1.flights.filter
        (fun f => decide (f.confirmation_number = some (("AB12CD").toList)))).length = 1 ∧
      create_trip_from_flight st1 1
        { airline := ("UNITED").toList,
          flight_number := some (("UA1234").toList),
          confirmation_number := some (("AB12CD").toList),
          departure_airport := some (("JFK").toList),
          arrival_airport := some (("LAX").toList),
          departure_time := none, arrival_time := none }
        (("m2").toList) 5 true = (none, st1) :=
  claim1_idempotent_materialization (Store.mk [] [] 1) _ (("AB12CD").toList) 1
    (("m1").toList) (("m2").toList) 0 5 true rfl (by simp)

/-- Claim C5: `create_trip_from_flight` writes the new `Trip` and its child
`Flight` atomically — either the result store extends the old one by exactly
one trip together with one flight pointing at it, or (on duplicate skip or a
failed write, which the source answers with `db.session.rollback()`) the
store is unchanged; consequently the no-orphan invariant (every trip has a
flight) is preserved. -/
theorem claim5_atomic_materialization (st : Store) (uid : Nat)
    (info : FlightInfo) (eid : List Char) (now : Nat) (commitOk : Bool)
    (r : Option Trip × Store)
    (hr : r = create_trip_from_flight st uid info eid now commitOk)
    (hinv : ∀ t ∈ st.trips, ∃ f ∈ st.flights, f.trip_id = t.id) :
    ((r.1 = none ∧ r.2 = st) ∨
      (∃ t f, r.1 = some t ∧ r.2.trips = st.trips ++ [t] ∧
        r.2.flights = st.flights ++ [f] ∧ f.trip_id = t.id)) ∧
      ∀ t ∈ r.2.trips, ∃ f ∈ r.2.flights, f.trip_id = t.id := by
  rcases hfind : st.flights.find?
      (fun f => decide (f.confirmation_number = info.confirmation_number)) with _ | g
  · cases commitOk with
    | false =>
      have hcr : create_trip_from_flight st uid info eid now false = (none, st) := by
        unfold create_trip_from_flight
        rw [hfind]
        rfl
      rw [hcr] at hr
      subst hr
      exact ⟨Or.inl ⟨rfl, rfl⟩, hinv⟩
    | true =>
      obtain ⟨t, f, hcr, hfc, hft⟩ := create_commit_of_find?_none uid eid now hfind
      rw [hcr] at hr
      subst hr
      constructor
      · exact Or.inr ⟨t, f, rfl, rfl, rfl, hft⟩
      · intro tr htr
        rcases List.mem_append.mp htr with h | h
        · rcases hinv tr h with ⟨fl, hfl, hid⟩
          exact ⟨fl, List.mem_append_left _ hfl, hid⟩
        · rw [List.mem_singleton] at h
          subst h
          exact ⟨f, List.mem_append_right _ (List.mem_singleton_self _), hft⟩
  · have hcr : create_trip_from_flight st uid info eid now commitOk = (none, st) := by
      unfold create_trip_from_flight
      rw [hfind]
    rw [hcr] at hr
    subst hr
    exact ⟨Or.inl ⟨rfl, rfl⟩, hinv⟩

/-- Witness for C5 at a concrete input: empty store, committing write. -/
theorem claim5_witness :
    (((create_trip_from_flight (Store.mk [] [] 1) 1
        { airline := ("UNITED").toList,
          flight_number := some (("UA1234").toList),
          confirmation_number := some (("AB12CD").toList),
          departure_airport := some (("JFK").toList),
          arrival_airport := some (("LAX").toList),
          departure_time := none, arrival_time := none }
        (("m1").toList) 0 true).1 = none ∧
      (create_trip_from_flight (Store.mk [] [] 1) 1
        { airline := ("UNITED").toList,
          flight_number := some (("UA1234").toList),
          confirmation_number := some (("AB12CD").toList),
          departure_airport := some (("JFK").toList),
          arrival_airport := some (("LAX").toList),
          departure_time := none, arrival_time := none }
        (("m1").toList) 0 true).2 = Store.mk [] [] 1) ∨
      (∃ t f, (create_trip_from_flight (Store.mk [] [] 1) 1
        { airline := ("UNITED").toList,
          flight_number := some (("UA1234").toList),
          confirmation_number := some (("AB12CD").toList),
          departure_airport := some (("JFK").toList),
          arrival_airport := some (("LAX").toList),
          departure_time := none, arrival_time := none }
        (("m1").toList) 0 true).1 = some t ∧
        (create_trip_from_flight (Store.mk [] [] 1) 1
        { airline := ("UNITED").toList,
          flight_number := some (("UA1234").toList),
          confirmation_number := some (("AB12CD").toList),
          departure_airport := some (("JFK").toList),
          arrival_airport := some (("LAX").toList),
          departure_time := none, arrival_time := none }
        (("m1").toList) 0 true).2.trips = (Store.mk [] [] 1).trips ++ [t] ∧
        (create_trip_from_flight (Store.mk [] [] 1) 1
        { airline := ("UNITED").toList,
          flight_number := some (("UA1234").toList),
          confirmation_number := some (("AB12CD").toList),
          departure_airport := some (("JFK").toList),
          arrival_airport := some (("LAX").toList),
          departure_time := none, arrival_time := none }
        (("m1").toList) 0 true).2.flights = (Store.mk [] [] 1).flights ++ [f] ∧
        f.trip_id = t.id)) ∧
      ∀ t ∈ (create_trip_from_flight (Store.mk [] [] 1) 1
        { airline := ("UNITED").toList,
          flight_number := some (("UA1234").toList),
          confirmation_number := some (("AB12CD").toList),
          departure_airport := some (("JFK").toList),
          arrival_airport := some (("LAX").toList),
          departure_time := none, arrival_time := none }
        (("m1").toList) 0 true).2.trips,
        ∃ f ∈ (create_trip_from_flight (Store.mk [] [] 1) 1
        { airline := ("UNITED").toList,
          flight_number := some (("UA1234").toList),
          confirmation_number := some (("AB12CD").toList),
          departure_airport := some (("JFK").toList),
          arrival_airport := some (("LAX").toList),
          departure_time := none, arrival_time := none }
        (("m1").toList) 0 true).2.flights, f.trip_id = t.id :=
  claim5_atomic_materialization (Store.mk [] [] 1) 1 _ (("m1").toList) 0 true _
    rfl (by simp)

/-- Claim C10 (implicit): when the candidate carries no confirmation code,
the duplicate lookup `filter_by(confirmation_number=None)` matches any
stored flight whose confirmation number is NULL, so as soon as one such
flight exists every later confirmation-less candidate is skipped with no
write — at most one confirmation-less auto-created flight can exist. -/
theorem claim10_null_confirmation_collapse (st : Store) (info : FlightInfo)
    (uid : Nat) (eid : List Char) (now : Nat) (commitOk : Bool) (f : Flight)
    (hc : info.confirmation_number = none)
    (hf : f ∈ st.flights)
    (hfnull : f.confirmation_number = none) :
    create_trip_from_flight st uid info eid now commitOk = (none, st) :=
  create_skip_of_mem uid eid now commitOk hf (by rw [hfnull, hc])

/-- Witness for C10 at a concrete input: a store holding one NULL-code
flight (for an unrelated flight DL9 BOS→SEA); a fresh confirmation-less
candidate UA12 JFK→LAX is skipped. -/
theorem claim10_witness :
    create_trip_from_flight
      (Store.mk []
        [{ trip_id := 1, airline := ("DELTA").toList,
           flight_number := some (("DL9").toList),
           confirmation_number := none,
           departure_airport := some (("BOS").toList),
           arrival_airport := some (("SEA").toList),
           departure_time := 0, arrival_time := 7200,
           status := ("scheduled").toList }] 2) 1
      { airline := ("UNITED").toList,
        flight_number := some (("UA12").toList),
        confirmation_number := none,
        departure_airport := some (("JFK").toList),
        arrival_airport := some (("LAX").toList),
        departure_time := none, arrival_time := none }
      (("m9").toList) 0 true =
    (none,
      Store.mk []
        [{ trip_id := 1, airline := ("DELTA").toList,
           flight_number := some (("DL9").toList),
           confirmation_number := none,
           departure_airport := some (("BOS").toList),
           arrival_airport := some (("SEA").toList),
           departure_time := 0, arrival_time := 7200,
           status := ("scheduled").toList }] 2) :=
  claim10_null_confirmation_collapse _ _ 1 (("m9").toList) 0 true _ rfl
    (List.mem_singleton_self _) rfl

/-- Claim C6: the extraction engine returns a candidate if and only if a
flight number and two (stop-word-filtered) airport codes were extracted; an
accepted candidate carries exactly the extracted fields, and confirmation
code and times may be absent in an accepted candidate — witnessed by a text
with no 6-character token and no date. -/
theorem claim6_required_fields (content airline : List Char) (now : Nat) :
    ((extract_flight_info content airline now).isSome ↔
      ((reSearchFlight content).isSome ∧ 2 ≤ (valid_airports content).length)) ∧
    (∀ info, extract_flight_info content airline now = some info →
      info.flight_number = reSearchFlight content ∧
      info.confirmation_number = (reFindallTok upperOrDigit 6 content).head? ∧
      info.departure_airport.isSome ∧ info.arrival_airport.isSome) ∧
    (∃ i, extract_flight_info (("UA 1234 JFK LAX").toList) (("united").toList)
        0 = some i ∧
      i.confirmation_number = none ∧ i.departure_time = none ∧
      i.arrival_time = none) := by
  refine ⟨?_, ?_, ?_⟩
  · by_cases h2 : 2 ≤ (valid_airports content).length
    · have hm : 2 ≤ (reFindallTok Char.isUpper 3 content).length :=
        le_trans h2 (List.length_filter_le _ _)
      have hv1 : ((valid_airports content).head?).isSome :=
        head?_isSome_of_length (by omega)
      have hv2 : ((valid_airports content)[1]?).isSome := by
        rw [List.getElem?_eq_getElem (by omega)]
        rfl
      rcases hfo : reSearchFlight content with _ | fn
      · simp [extract_flight_info, hm, h2, hfo]
      · simp [extract_flight_info, hm, h2, hfo, hv1, hv2]
    · have hx : extract_flight_info content airline now = none := by
        by_cases hm : 2 ≤ (reFindallTok Char.isUpper 3 content).length
        · simp [extract_flight_info, hm, h2]
        · simp [extract_flight_info, hm]
      simp [hx, h2]
  · intro info hinfo
    by_cases hm : 2 ≤ (reFindallTok Char.isUpper 3 content).length
    · by_cases h2 : 2 ≤ (valid_airports content).length
      · simp only [extract_flight_info, hm, h2, if_true] at hinfo
        split at hinfo
        · rw [Option.some.injEq] at hinfo
          subst hinfo
          rename_i hcond
          rw [Bool.and_eq_true, Bool.and_eq_true] at hcond
          exact ⟨rfl, rfl, hcond.1.2, hcond.2⟩
        · exact absurd hinfo (by simp)
      · simp [extract_flight_info, hm, h2] at hinfo
    · simp [extract_flight_info, hm] at hinfo
  · exact
      ⟨{ airline := ("UNITED").toList,
         flight_number := some (("UA1234").toList),
         confirmation_number := none,
         departure_airport := some (("JFK").toList),
         arrival_airport := some (("LAX").toList),
         departure_time := none, arrival_time := none },
        by decide, rfl, rfl, rfl⟩

/-- Claim C7, counterexample: on a text containing a matching date,
`_extract_datetime` returns a value that depends on the clock and equals the
current time plus 30 days — neither parsed from the text nor left unset. -/
theorem claim7_counterexample :
    extract_datetime (("Departs 12/25/2024 10:30 AM").toList) 0 =
      some (30 * 86400) ∧
    extract_datetime (("Departs 12/25/2024 10:30 AM").toList) 86400 =
      some (86400 + 30 * 86400) ∧
    extract_datetime (("Departs 12/25/2024 10:30 AM").toList) 0 ≠
      extract_datetime (("Departs 12/25/2024 10:30 AM").toList) 86400 := by
  refine ⟨by decide, by decide, by decide⟩

/-- Claim C7, amended: whenever `_extract_datetime` produces a time at all,
that time is the fixed placeholder `now + 30 days` — for every clock reading
— so a produced time is a guessed default, never a value parsed from the
text; only when no date regex matches is the time left unset. -/
theorem claim7_amended_placeholder_time (content : List Char) (now now' : Nat)
    (h : (extract_datetime content now).isSome) :
    extract_datetime content now = some (now + 30 * 86400) ∧
    extract_datetime content now' = some (now' + 30 * 86400) := by
  by_cases hm : anyDateMatch content
  · simp [extract_datetime, hm]
  · simp [extract_datetime, hm] at h

/-- Witness for the amended C7 at a concrete input. -/
theorem claim7_witness :
    extract_datetime (("12/25/2024 10:30").toList) 3 = some (3 + 30 * 86400) ∧
    extract_datetime (("12/25/2024 10:30").toList) 9 = some (9 + 30 * 86400) :=
  claim7_amended_placeholder_time (("12/25/2024 10:30").toList) 3 9 (by decide)

set_option maxRecDepth 8000 in
/-- Claim C8, counterexample: on a fixed input containing a date token, two
runs of `parse_flight_email` at two clock readings return different
candidates — extraction is not a pure function of (text, subject, sender)
alone, because `_extract_datetime` reads the clock. -/
theorem claim8_counterexample :
    parse_flight_email (fun t => t) (("UA 12 JFK LAX 1/2/2024 3:45").toList)
        (("").toList) (("a@united.com").toList) 0 ≠
      parse_flight_email (fun t => t) (("UA 12 JFK LAX 1/2/2024 3:45").toList)
        (("").toList) (("a@united.com").toList) 1 := by
  decide

/-- Claim C8, amended: extraction is deterministic in (text, subject, sender,
clock); whenever no date regex matches the cleaned body text, the result is
moreover independent of the clock, so repeated runs on such inputs agree at
any two times. -/
theorem claim8_amended_determinism (getText : List Char → List Char)
    (content subject fromEmail : List Char) (now now' : Nat)
    (h : anyDateMatch (clean_text getText content) = false) :
    parse_flight_email getText content subject fromEmail now =
      parse_flight_email getText content subject fromEmail now' := by
  simp only [parse_flight_email]
  cases hd : detect_airline fromEmail subject (clean_text getText content) with
  | none => rfl
  | some a => simp [extract_flight_info, extract_datetime, h]

/-- Witness for the amended C8 at a concrete date-free input. -/
theorem claim8_witness :
    parse_flight_email (fun t => t) (("UA 12 JFK LAX").toList) (("").toList)
        (("a@united.com").toList) 5 =
      parse_flight_email (fun t => t) (("UA 12 JFK LAX").toList) (("").toList)
        (("a@united.com").toList) 11 :=
  claim8_amended_determinism (fun t => t) (("UA 12 JFK LAX").toList)
    (("").toList) (("a@united.com").toList) 5 11 (by decide)

set_option maxRecDepth 8000 in
/-- Claim C9, counterexample: on the scenario-A text
"UA1234 Confirmation: AB12CD JFK LAX" from a united.com sender, the
extracted confirmation code is "UA1234" — the flight-number token itself is
the first 6-character alphanumeric uppercase token — not "AB12CD" as the
claim states. -/
theorem claim9_counterexample :
    (parse_flight_email (fun t => t)
        (("UA1234 Confirmation: AB12CD JFK LAX").toList) (("").toList)
        (("a@united.com").toList) 0).map FlightInfo.confirmation_number =
      some (some (("UA1234").toList)) ∧
    (parse_flight_email (fun t => t)
        (("UA1234 Confirmation: AB12CD JFK LAX").toList) (("").toList)
        (("a@united.com").toList) 0).map FlightInfo.confirmation_number ≠
      some (some (("AB12CD").toList)) := by
  exact ⟨by decide, by decide⟩

set_option maxRecDepth 8000 in
/-- Claim C9, amended end-to-end scenario A: extraction on that text yields
flight number "UA1234", departure "JFK", arrival "LAX", airline "UNITED" but
confirmation "UA1234" (first 6-character token in document order);
materializing the candidate into an empty store creates exactly one Trip
titled "JFK to LAX" and one Flight whose confirmation code is "UA1234". -/
theorem claim9_amended_end_to_end :
    parse_flight_email (fun t => t)
        (("UA1234 Confirmation: AB12CD JFK LAX").toList) (("").toList)
        (("a@united.com").toList) 0 =
      some
        { airline := ("UNITED").toList,
          flight_number := some (("UA1234").toList),
          confirmation_number := some (("UA1234").toList),
          departure_airport := some (("JFK").toList),
          arrival_airport := some (("LAX").toList),
          departure_time := none, arrival_time := none } ∧
    (create_trip_from_flight (Store.mk [] [] 1) 1
        { airline := ("UNITED").toList,
          flight_number := some (("UA1234").toList),
          confirmation_number := some (("UA1234").toList),
          departure_airport := some (("JFK").toList),
          arrival_airport := some (("LAX").toList),
          departure_time := none, arrival_time := none }
        (("msg1").toList) 0 true).2.trips.map Trip.title =
      [("JFK to LAX").toList] ∧
    (create_trip_from_flight (Store.mk [] [] 1) 1
        { airline := ("UNITED").toList,
          flight_number := some (("UA1234").toList),
          confirmation_number := some (("UA1234").toList),
          departure_airport := some (("JFK").toList),
          arrival_airport := some (("LAX").toList),
          departure_time := none, arrival_time := none }
        (("msg1").toList) 0 true).2.flights.map Flight.confirmation_number =
      [some (("UA1234").toList)] := by
  refine ⟨by decide, by decide, by decide⟩

/-- Claim C2: contrary to the claim, when the message-list call is rejected
with HTTP 401 the Gmail scanner performs no token refresh and no retry at
all — it returns 0 having made only the single list call, whatever messages
a refreshed retry would have yielded.  (The repository defines
`refresh_oauth_token` but never calls it.) -/
theorem claim2_no_refresh_on_401 (getText : List Char → List Char)
    (msgs : List GmailMsg) (st : Store) (userId now : Nat) :
    gmail_scan_for_flights getText 401 msgs st userId now =
      (0, st, [ScanEvent.listGet]) ∧
    ScanEvent.tokenRefresh ∉
      (gmail_scan_for_flights getText 401 msgs st userId now).2.2 := by
  constructor
  · simp [gmail_scan_for_flights]
  · simp [gmail_scan_for_flights]

/-- Claim C3, counterexample: a failing refresh exchange (provider answers
invalid_grant, no access_token) returns False and leaves the account record
untouched — `is_active` remains true, it is not set to false as the claim
states. -/
theorem claim3_counterexample :
    refresh_oauth_token
        { id := 1, email_type := EmailType.gmail,
          access_token := some (("tokA").toList),
          refresh_token := some (("tokR").toList),
          token_expires_at := none, is_active := true }
        { google_client_id := some (("cid").toList),
          google_client_secret := some (("sec").toList),
          microsoft_client_id := none, microsoft_client_secret := none }
        (Except.ok
          { access_token := none, refresh_token := none, expires_in := none,
            error := some (("invalid_grant").toList) }) 0 =
      (false,
        { id := 1, email_type := EmailType.gmail,
          access_token := some (("tokA").toList),
          refresh_token := some (("tokR").toList),
          token_expires_at := none, is_active := true }) ∧
    (refresh_oauth_token
        { id := 1, email_type := EmailType.gmail,
          access_token := some (("tokA").toList),
          refresh_token := some (("tokR").toList),
          token_expires_at := none, is_active := true }
        { google_client_id := some (("cid").toList),
          google_client_secret := some (("sec").toList),
          microsoft_client_id := none, microsoft_client_secret := none }
        (Except.ok
          { access_token := none, refresh_token := none, expires_in := none,
            error := some (("invalid_grant").toList) }) 0).2.is_active =
      true := by
  exact ⟨by decide, by decide⟩

/-- Claim C3, amended: every failing refresh exchange (missing provider
credentials, a raising request, or a reply without an access_token) returns
False and leaves the account record exactly as it was — in particular the
credential is never marked inactive; the function signals failure by its
return value rather than by raising, so a scan loop over accounts
continues. -/
theorem claim3_amended_refresh_failure (acct : EmailAccountM)
    (settings : UserSettingsM) (resp : Except (List Char) TokenResponse)
    (now : Nat)
    (h : (refresh_oauth_token acct settings resp now).1 = false) :
    (refresh_oauth_token acct settings resp now).2 = acct := by
  unfold refresh_oauth_token at h ⊢
  cases hA : acct.email_type <;> simp only [hA] at h ⊢
  · by_cases hg : has_google_oauth settings
    · simp only [hg, Bool.not_true, Bool.false_eq_true, if_false] at h ⊢
      cases resp with
      | error e => rfl
      | ok tokens =>
        cases hT : tokens.access_token with
        | none => simp [hT]
        | some v => simp [hT] at h
    · simp [hg]
  · by_cases hg : has_microsoft_oauth settings
    · simp only [hg, Bool.not_true, Bool.false_eq_true, if_false] at h ⊢
      cases resp with
      | error e => rfl
      | ok tokens =>
        cases hT : tokens.access_token with
        | none => simp [hT]
        | some v => simp [hT] at h
    · simp [hg]
  · rfl

/-- Witness for the amended C3 at the invalid_grant input. -/
theorem claim3_witness :
    (refresh_oauth_token
        { id := 1, email_type := EmailType.gmail,
          access_token := some (("tokA").toList),
          refresh_token := some (("tokR").toList),
          token_expires_at := none, is_active := true }
        { google_client_id := some (("cid").toList),
          google_client_secret := some (("sec").toList),
          microsoft_client_id := none, microsoft_client_secret := none }
        (Except.ok
          { access_token := none, refresh_token := none, expires_in := none,
            error := some (("invalid_grant").toList) }) 0).2 =
      { id := 1, email_type := EmailType.gmail,
        access_token := some (("tokA").toList),
        refresh_token := some (("tokR").toList),
        token_expires_at := none, is_active := true } :=
  claim3_amended_refresh_failure _ _ _ 0 (by decide)

/-- The scan loop appends exactly one log row per scannable account, in
order, independent of successes and failures. -/
lemma scan_all_go_logs (l : List ScanAccount) (t : Nat) (logs : List ScanLog) :
    (scan_all_go l t logs).2 =
      logs ++ (l.filter account_scannable).map log_of := by
  induction l generalizing t logs with
  | nil => simp [scan_all_go]
  | cons a rest ih =>
    cases h1 : a.email_integration_enabled <;>
    cases h2 : a.auto_scan_emails <;>
    cases h3 : a.email_type <;>
    rcases h4 : a.scan_result with e | n <;>
      simp [scan_all_go, h1, h2, h3, h4, account_scannable, log_of, ih,
        List.append_assoc]

/-- Claim C4: per-account isolation of a job firing — when one active,
scannable account raises during its scan, `scan_all_email_accounts` writes
an error scan-log row for that account and still processes (logs a row for)
every active scannable account that follows it in the same firing. -/
theorem claim4_per_account_isolation (pre post : List ScanAccount)
    (a : ScanAccount) (e : List Char)
    (hact : a.is_active = true)
    (hscan : account_scannable a = true)
    (herr : a.scan_result = Except.error e) :
    ({ email_account_id := a.id, trips_created := 0, emails_processed := 0,
       errors := some e } : ScanLog) ∈
      (scan_all_email_accounts (pre ++ a :: post)).2 ∧
    ∀ b ∈ post, b.is_active = true → account_scannable b = true →
      log_of b ∈ (scan_all_email_accounts (pre ++ a :: post)).2 := by
  have hlogs : (scan_all_email_accounts (pre ++ a :: post)).2 =
      (((pre ++ a :: post).filter (fun x => x.is_active)).filter
        account_scannable).map log_of := by
    unfold scan_all_email_accounts
    rw [scan_all_go_logs]
    rfl
  constructor
  · rw [hlogs]
    have hmem : a ∈ ((pre ++ a :: post).filter
        (fun x => x.is_active)).filter account_scannable := by
      rw [List.mem_filter, List.mem_filter]
      exact ⟨⟨List.mem_append_right _ (List.mem_cons_self _ _), hact⟩, hscan⟩
    have hmap := List.mem_map_of_mem log_of hmem
    simpa [log_of, herr] using hmap
  · intro b hb hbact hbscan
    rw [hlogs]
    apply List.mem_map_of_mem
    rw [List.mem_filter, List.mem_filter]
    exact ⟨⟨List.mem_append_right _ (List.mem_cons_of_mem _ hb), hbact⟩, hbscan⟩

/-- Witness for C4: a two-account firing whose first account raises; the
error row is logged and the second account is still processed. -/
theorem claim4_witness :
    ({ email_account_id := 1, trips_created := 0, emails_processed := 0,
       errors := some (("boom").toList) } : ScanLog) ∈
      (scan_all_email_accounts ([] ++
        { id := 1, is_active := true, email_integration_enabled := true,
          auto_scan_emails := true, email_type := EmailType.gmail,
          scan_result := Except.error (("boom").toList) } ::
        [{ id := 2, is_active := true, email_integration_enabled := true,
           auto_scan_emails := true, email_type := EmailType.outlook,
           scan_result := Except.ok 3 }])).2 ∧
    ∀ b ∈ [({ id := 2, is_active := true,
              email_integration_enabled := true,
              auto_scan_emails := true, email_type := EmailType.outlook,
              scan_result := Except.ok 3 } : ScanAccount)],
      b.is_active = true → account_scannable b = true →
        log_of b ∈ (scan_all_email_accounts ([] ++
          { id := 1, is_active := true, email_integration_enabled := true,
            auto_scan_emails := true, email_type := EmailType.gmail,
            scan_result := Except.error (("boom").toList) } ::
          [{ id := 2, is_active := true, email_integration_enabled := true,
             auto_scan_emails := true, email_type := EmailType.outlook,
             scan_result := Except.ok 3 }])).2 :=
  claim4_per_account_isolation []
    [{ id := 2, is_active := true, email_integration_enabled := true,
       auto_scan_emails := true, email_type := EmailType.outlook,
       scan_result := Except.ok 3 }]
    { id := 1, is_active := true, email_integration_enabled := true,
      auto_scan_emails := true, email_type := EmailType.gmail,
      scan_result := Except.error (("boom").toList) }
    (("boom").toList) rfl (by decide) rfl

end TravelTracker
